import Mathlib

set_option linter.unusedVariables false
set_option maxRecDepth 2000

/-!
Shallow embedding of src/EasyButton/main.c (MT3620 EasyButton sample).

The file models the event-handler layer of the program: the two button
debouncers, the arm/confirm gesture inside ButtonsHandler, the LED blink
state, the device-twin update handler, the direct-method handler and the
notification callbacks.  External collaborators (GPIO reads, timerfd
operations, the Azure IoT client, JSON parsing, the RGB-LED utility) are
modelled at their capability boundary: GPIO levels and parsed JSON values
are inputs, timer configuration and LED colors are fields of the device
state, and calls into the IoT client are recorded in lists.  Fallible
external operations (GPIO reads, timer consumption, heap allocation) are
modelled on their success path; their failure branches in the source set
terminationRequired or abort and are outside the claims treated here.
-/

namespace EasyButton

/-- GPIO input level as in applibs gpio.h: GPIO_Value_Low is 0 and
GPIO_Value_High is 1; statics of this type are zero-initialized to low. -/
inductive GPIOValue where
  | low
  | high
  deriving DecidableEq, Repr

/-- Colors of the RGB-LED utility.  Modelled from the spec: the RGB-LED
pixel driver is an external collaborator whose source is not under src;
the palette is the standard color set of the utility together with a
distinguished unknown value. -/
inductive Color where
  | off
  | white
  | red
  | green
  | blue
  | cyan
  | magenta
  | yellow
  | unknown
  deriving DecidableEq, Repr

/-- A struct timespec value: seconds and nanoseconds. -/
structure Timespec where
  sec : Nat
  nsec : Nat
  deriving DecidableEq, Repr

/-- blinkIntervals, main.c line 72: the three blink-rate presets. -/
def blinkIntervals : List Timespec := [⟨0, 125000000⟩, ⟨0, 250000000⟩, ⟨0, 500000000⟩]

/-- blinkIntervalsCount, main.c line 73. -/
def blinkIntervalsCount : Nat := blinkIntervals.length

/-- nullPeriod, main.c line 98. -/
def nullPeriod : Timespec := ⟨0, 0⟩

/-- defaultBlinkTimeLed2, main.c line 99: 150 ms one-shot delay for LED2. -/
def defaultBlinkTimeLed2 : Timespec := ⟨0, 150 * 1000 * 1000⟩

/-- Modelled from the spec: RgbLedUtility_GetColorFromString of the RGB-LED
utility (not under src) maps a recognized color name to its color and any
other string to unknown; recognition is an exact match on the canonical
names. -/
def RgbLedUtility_GetColorFromString (name : String) : Color :=
  if name = "red" then Color.red
  else if name = "green" then Color.green
  else if name = "blue" then Color.blue
  else if name = "white" then Color.white
  else if name = "cyan" then Color.cyan
  else if name = "magenta" then Color.magenta
  else if name = "yellow" then Color.yellow
  else if name = "off" then Color.off
  else Color.unknown

/-- Modelled from the spec: RgbLedUtility_GetStringFromColor of the RGB-LED
utility (not under src) yields the canonical name of a color. -/
def RgbLedUtility_GetStringFromColor (c : Color) : String :=
  match c with
  | Color.off => "off"
  | Color.white => "white"
  | Color.red => "red"
  | Color.green => "green"
  | Color.blue => "blue"
  | Color.cyan => "cyan"
  | Color.magenta => "magenta"
  | Color.yellow => "yellow"
  | Color.unknown => "unknown"

/-- The globals of the threshold debouncer, main.c lines 437 to 439:
easyButtonState and easyButtonCount (easyButtonArmed lives in the device
state).  Both are zero-initialized, so the initial recorded level is low
and the initial counter is 0. -/
structure EasyButtonGlobals where
  easyButtonState : GPIOValue
  easyButtonCount : Nat
  deriving DecidableEq, Repr

/-- The mutable process-wide state of main.c that the modelled handlers
touch.  LED colors stand for the last RgbLedUtility_SetLed call per LED;
led1TimerPeriod is the period of gpioLed1TimerFd; led2OneShot is the
pending single expiry of gpioLed2TimerFd; sentMessages records the
payloads passed to AzureIoT_SendMessage and reportedProperties the pairs
passed to AzureIoT_TwinReportState, in call order. -/
structure DeviceState where
  blinkIntervalIndex : Nat
  ledBlinkColor : Color
  blinkingLedPeriod : Timespec
  blinkingLedState : Bool
  connectedToIoTHub : Bool
  led1 : Color
  led2 : Color
  led3 : Color
  led1TimerPeriod : Timespec
  led2OneShot : Option Timespec
  easyButtonArmed : Bool
  easy : EasyButtonGlobals
  blinkButtonState : GPIOValue
  messageButtonState : GPIOValue
  sentMessages : List String
  reportedProperties : List (String × Nat)
  deriving DecidableEq, Repr

/-- The device state right after InitPeripheralsAndHandlers: globals carry
their initializers (main.c lines 69, 70, 94, 95, 102, 437 to 439), the
statics of ButtonsHandler are zero-initialized, and line 577 sets LED1
off. -/
def initialState : DeviceState :=
  { blinkIntervalIndex := 0
    ledBlinkColor := Color.blue
    blinkingLedPeriod := ⟨0, 125000000⟩
    blinkingLedState := false
    connectedToIoTHub := false
    led1 := Color.off
    led2 := Color.off
    led3 := Color.off
    led1TimerPeriod := ⟨0, 125000000⟩
    led2OneShot := none
    easyButtonArmed := false
    easy := ⟨GPIOValue.low, 0⟩
    blinkButtonState := GPIOValue.low
    messageButtonState := GPIOValue.low
    sentMessages := []
    reportedProperties := [] }

/-- BlinkLed2Once, main.c lines 137 to 141: set LED2 red and arm the LED2
timer for a single expiry after defaultBlinkTimeLed2. -/
def BlinkLed2Once (s : DeviceState) : DeviceState :=
  { s with led2 := Color.red, led2OneShot := some defaultBlinkTimeLed2 }

/-- SetLedRate, main.c lines 164 to 178: set the period of the LED1 timer
to the given rate and, when connected, report blinkIntervalIndex upstream;
when not connected the report is only logged.  The SetTimerFdToPeriod
failure branch (which sets terminationRequired) is the success path
here. -/
def SetLedRate (rate : Timespec) (s : DeviceState) : DeviceState :=
  let s1 := { s with led1TimerPeriod := rate }
  if s1.connectedToIoTHub then
    { s1 with reportedProperties :=
        s1.reportedProperties ++ [("LedBlinkRateProperty", s1.blinkIntervalIndex)] }
  else
    s1

/-- SendMessageToIotHub, main.c lines 183 to 195: when connected, pass the
payload to AzureIoT_SendMessage and blink LED2 once; when not connected,
only a warning is logged and nothing changes. -/
def SendMessageToIotHub (messagePayload : String) (s : DeviceState) : DeviceState :=
  if s.connectedToIoTHub then
    BlinkLed2Once { s with sentMessages := s.sentMessages ++ [messagePayload] }
  else
    s

/-- MessageReceived, main.c lines 201 to 205: blink LED2 once. -/
def MessageReceived (payload : String) (s : DeviceState) : DeviceState :=
  BlinkLed2Once s

/-- MessageDelivered, main.c lines 365 to 368: the message-confirmation
callback sets LED1 green (it does not touch LED2 or its timer). -/
def MessageDelivered (delivered : Bool) (s : DeviceState) : DeviceState :=
  { s with led1 := Color.green }

/-- IoTHubConnectionStatusChanged, main.c lines 374 to 377. -/
def IoTHubConnectionStatusChanged (connected : Bool) (s : DeviceState) : DeviceState :=
  { s with connectedToIoTHub := connected }

/-- The desired LedBlinkRateProperty as seen by DeviceTwinUpdate after the
external JSON layer: absent, present with a non-number type, or present as
a number already cast to size_t. -/
inductive TwinValue where
  | missing
  | nonNumber
  | number (v : Nat)
  deriving DecidableEq, Repr

/-- The fold of a desired blink-rate value, main.c lines 230 to 231:
desiredBlinkRate % blinkIntervalsCount. -/
def foldBlinkIndex (v : Nat) : Nat := v % blinkIntervalsCount

/-- DeviceTwinUpdate, main.c lines 213 to 239: a missing or non-number
property is only logged; a number is folded into blinkIntervalIndex, the
blink period global is updated and SetLedRate reconfigures the LED1
timer. -/
def DeviceTwinUpdate (blinkRateJson : TwinValue) (s : DeviceState) : DeviceState :=
  match blinkRateJson with
  | TwinValue.missing => s
  | TwinValue.nonNumber => s
  | TwinValue.number desiredBlinkRate =>
    let idx := foldBlinkIndex desiredBlinkRate
    let s1 := { s with blinkIntervalIndex := idx,
                       blinkingLedPeriod := blinkIntervals.getD idx nullPeriod }
    SetLedRate (blinkIntervals.getD idx nullPeriod) s1

/-- Result of a direct method call: HTTP status, response payload (none
models the NULL pointer; heap allocation is modelled as succeeding, the
failure branch in the source aborts the process) and the response payload
size written by the handler. -/
structure DirectMethodResult where
  status : Nat
  responsePayload : Option String
  responsePayloadSize : Nat
  deriving DecidableEq, Repr

/-- The response built at the colorNotFound label, main.c lines 347 to
362: status 400 with the fixed failure body. -/
def colorNotFoundResponse : DirectMethodResult :=
  let body := "\x7b \"success\" : false, \"message\" : \"request does not contain an identifiable color\" \x7d"
  ⟨400, some body, body.length⟩

/-- DirectMethodCall, main.c lines 273 to 363.  The JSON layer is an
external collaborator; colorName is the result of the parse chain
json_parse_string, json_value_get_object, json_object_get_string on the
payload, with none standing for a failure at any of those steps.  An
unknown method name yields 404, an unrecognized or unobtainable color
yields 400, and a recognized color yields 200 and stores the color in
ledBlinkColor.  Bodies are the exact strings vsnprintf formats in the
source. -/
def DirectMethodCall (methodName : String) (colorName : Option String)
    (s : DeviceState) : DirectMethodResult × DeviceState :=
  if methodName ≠ "LedColorControlMethod" then
    let body := "\"method not found \x27" ++ methodName ++ "\x27\""
    (⟨404, some body, body.length⟩, s)
  else
    match colorName with
    | none => (colorNotFoundResponse, s)
    | some name =>
      let ledColor := RgbLedUtility_GetColorFromString name
      if ledColor = Color.unknown then
        (colorNotFoundResponse, s)
      else
        let colorString := RgbLedUtility_GetStringFromColor ledColor
        let body := "\x7b \"success\" : true, \"message\" : \"led color set to " ++ colorString ++ "\" \x7d"
        (⟨200, some body, body.length⟩, { s with ledBlinkColor := ledColor })

/-- Led1UpdateHandler, main.c lines 382 to 398: mirror connectivity on
LED3 and toggle the blink phase; the SetLed call for LED1 is commented out
in the source, so LED1 is left unchanged. -/
def Led1UpdateHandler (s : DeviceState) : DeviceState :=
  let s1 := { s with led3 := if s.connectedToIoTHub then Color.green else Color.off }
  { s1 with blinkingLedState := !s1.blinkingLedState }

/-- Led2UpdateHandler, main.c lines 403 to 412: on expiry of the LED2
one-shot timer, blank LED2; the consumed one-shot is spent. -/
def Led2UpdateHandler (s : DeviceState) : DeviceState :=
  { s with led2 := Color.off, led2OneShot := none }

/-- IsButtonPressed, main.c lines 420 to 435, on the success path of the
GPIO read: pressed iff the sampled level is low and differs from the
recorded level; the recorded level is always updated to the sample.
Returns the pressed flag and the new recorded level. -/
def IsButtonPressed (newState oldState : GPIOValue) : Bool × GPIOValue :=
  (decide (newState ≠ oldState ∧ newState = GPIOValue.low), newState)

/-- IsEasyButtonPressed, main.c lines 441 to 462, on the success path of
the GPIO read.  When the sample differs from the recorded level and the
counter exceeds 450, the transition is accepted: the counter resets to 0,
the level is recorded, and the call reports pressed iff the new level is
high.  Otherwise the counter increments and the level is recorded
anyway. -/
def IsEasyButtonPressed (newState : GPIOValue) (g : EasyButtonGlobals) :
    Bool × EasyButtonGlobals :=
  if g.easyButtonState ≠ newState ∧ g.easyButtonCount > 450 then
    (decide (newState = GPIOValue.high), ⟨newState, 0⟩)
  else
    (false, ⟨newState, g.easyButtonCount + 1⟩)

/-- ButtonsHandler, main.c lines 467 to 510, taking the sampled GPIO
levels of button A, button B and the easy button as inputs.  A pressed
button A arms the gesture and sets LED1 blue; a pressed button B or easy
button, while armed, disarms, sets LED1 red and sends the fixed payload.
The plain GPIO_GetValue at line 497 only feeds a commented-out log. -/
def ButtonsHandler (lvlA lvlB lvlEasy : GPIOValue) (s : DeviceState) : DeviceState :=
  let rA := IsButtonPressed lvlA s.blinkButtonState
  let s1 := { s with blinkButtonState := rA.2 }
  let s2 := if rA.1 then { s1 with easyButtonArmed := true, led1 := Color.blue } else s1
  let rB := IsButtonPressed lvlB s2.messageButtonState
  let s3 := { s2 with messageButtonState := rB.2 }
  let s4 :=
    if rB.1 then
      if s3.easyButtonArmed then
        SendMessageToIotHub "That was easy"
          { s3 with easyButtonArmed := false, led1 := Color.red }
      else s3
    else s3
  let rE := IsEasyButtonPressed lvlEasy s4.easy
  let s5 := { s4 with easy := rE.2 }
  if rE.1 then
    if s5.easyButtonArmed then
      SendMessageToIotHub "That was easy"
        { s5 with easyButtonArmed := false, led1 := Color.red }
    else s5
  else s5

/-- Trace semantics of the edge debouncer: the pressed flag reported at
each sampling tick, threading the recorded level. -/
def runButton (old : GPIOValue) : List GPIOValue → List Bool
  | [] => []
  | lvl :: rest => (IsButtonPressed lvl old).1 :: runButton (IsButtonPressed lvl old).2 rest

/-- Trace semantics of the threshold debouncer: per tick, the pressed flag
and the debouncer globals after the tick. -/
def runEasy (g : EasyButtonGlobals) : List GPIOValue → List (Bool × EasyButtonGlobals)
  | [] => []
  | lvl :: rest => IsEasyButtonPressed lvl g :: runEasy (IsEasyButtonPressed lvl g).2 rest

/-- The threshold-debouncer globals after consuming a list of samples. -/
def runEasyState (g : EasyButtonGlobals) : List GPIOValue → EasyButtonGlobals
  | [] => g
  | lvl :: rest => runEasyState (IsEasyButtonPressed lvl g).2 rest

/-- Holds when no tick of the sample list is accepted by the threshold
debouncer.  An accepted tick is exactly a tick whose post-state counter is
0, since acceptance resets the counter and every other tick increments
it. -/
def noAcceptB (g : EasyButtonGlobals) : List GPIOValue → Bool
  | [] => true
  | lvl :: rest =>
    decide ((IsEasyButtonPressed lvl g).2.easyButtonCount ≠ 0) &&
      noAcceptB (IsEasyButtonPressed lvl g).2 rest

/-- Follows the claim wording for the threshold debouncer: the last
accepted level after a run is the level recorded at the most recent
accepted tick (identified by its counter reset, as the claim itself says
the counter resets to 0 on acceptance), or the initial recorded level if
no tick was accepted. -/
def lastAcceptedLevel (g : EasyButtonGlobals) (lvls : List GPIOValue) : GPIOValue :=
  (runEasy g lvls).foldl
    (fun acc p => if p.2.easyButtonCount = 0 then p.2.easyButtonState else acc)
    g.easyButtonState

/-- A sample trace for the threshold debouncer: 451 low ticks, one high
tick (which is accepted and reported pressed), then another 451 low
ticks none of which is accepted. -/
def c2Trace : List GPIOValue :=
  List.replicate 451 GPIOValue.low ++ [GPIOValue.high] ++
    List.replicate 451 GPIOValue.low

/-- Follows the claim wording for the success body of the direct-method
handler: compact JSON, no spaces around separators, instantiated at the
color name red. -/
def claimedLedColorOkBodyRed : String :=
  "\x7b\"success\":true,\"message\":\"led color set to red\"\x7d"

/-- A device state connected to the hub, with both edge-detect button
recordings at the released (high) level; buttons A and B are wired
active-low, so the next low sample is a press. -/
def gestureReadyState : DeviceState :=
  { initialState with
      connectedToIoTHub := true,
      blinkButtonState := GPIOValue.high,
      messageButtonState := GPIOValue.high }

/-- The gesture-ready state after the primary press armed the gesture. -/
def gestureArmedState : DeviceState :=
  { gestureReadyState with easyButtonArmed := true }

/-- A tick of the threshold debouncer either resets the counter to 0 (on
acceptance) or increments it by one. -/
theorem easy_count_step (lvl : GPIOValue) (g : EasyButtonGlobals) :
    (IsEasyButtonPressed lvl g).2.easyButtonCount = 0 ∨
      (IsEasyButtonPressed lvl g).2.easyButtonCount = g.easyButtonCount + 1 := by
  unfold IsEasyButtonPressed
  by_cases h : g.easyButtonState ≠ lvl ∧ g.easyButtonCount > 450
  · rw [if_pos h]; exact Or.inl rfl
  · rw [if_neg h]; exact Or.inr rfl

/-- A counter reset witnesses that the guard of the accept branch held:
the sample differed from the recorded level and the counter exceeded
450. -/
theorem easy_accept_pre (lvl : GPIOValue) (g : EasyButtonGlobals)
    (h : (IsEasyButtonPressed lvl g).2.easyButtonCount = 0) :
    g.easyButtonState ≠ lvl ∧ g.easyButtonCount > 450 := by
  by_cases hc : g.easyButtonState ≠ lvl ∧ g.easyButtonCount > 450
  · exact hc
  · exfalso
    unfold IsEasyButtonPressed at h
    rw [if_neg hc] at h
    exact Nat.succ_ne_zero _ h

/-- Consuming a run of samples none of which is accepted adds exactly the
length of the run to the counter. -/
theorem noAccept_run_count : ∀ (lvls : List GPIOValue) (g : EasyButtonGlobals),
    noAcceptB g lvls = true →
    (runEasyState g lvls).easyButtonCount = g.easyButtonCount + lvls.length := by
  intro lvls
  induction lvls with
  | nil => intro g h; simp [runEasyState]
  | cons lvl rest ih =>
    intro g h
    unfold noAcceptB at h
    rw [Bool.and_eq_true] at h
    obtain ⟨h1, h2⟩ := h
    rcases easy_count_step lvl g with h0 | hs
    · rw [decide_eq_true_iff] at h1
      exact absurd h0 h1
    · unfold runEasyState
      rw [ih _ h2, hs, List.length_cons]
      omega

/-- Unfolding equation of runEasyState on a cons cell. -/
theorem runEasyState_cons (lvl : GPIOValue) (rest : List GPIOValue) (g : EasyButtonGlobals) :
    runEasyState g (lvl :: rest) = runEasyState (IsEasyButtonPressed lvl g).2 rest := rfl

/-- Unfolding equation of noAcceptB on a cons cell. -/
theorem noAcceptB_cons (lvl : GPIOValue) (rest : List GPIOValue) (g : EasyButtonGlobals) :
    noAcceptB g (lvl :: rest) =
      (decide ((IsEasyButtonPressed lvl g).2.easyButtonCount ≠ 0) &&
        noAcceptB (IsEasyButtonPressed lvl g).2 rest) := rfl

/-- A low sample on a recorded low level falls through: no acceptance,
counter incremented. -/
theorem easy_step_low_low (c : Nat) :
    IsEasyButtonPressed GPIOValue.low ⟨GPIOValue.low, c⟩ =
      (false, ⟨GPIOValue.low, c + 1⟩) := by
  unfold IsEasyButtonPressed
  rw [if_neg (fun h => h.1 rfl)]

/-- A run of n low samples from a recorded low level only counts up. -/
theorem rep_low_state : ∀ (n c : Nat),
    runEasyState ⟨GPIOValue.low, c⟩ (List.replicate n GPIOValue.low) =
      ⟨GPIOValue.low, c + n⟩ := by
  intro n
  induction n with
  | zero => intro c; rfl
  | succ k ih =>
    intro c
    rw [List.replicate_succ]
    show runEasyState (IsEasyButtonPressed GPIOValue.low ⟨GPIOValue.low, c⟩).2
        (List.replicate k GPIOValue.low) = _
    rw [easy_step_low_low c]
    show runEasyState ⟨GPIOValue.low, c + 1⟩ (List.replicate k GPIOValue.low) = _
    rw [ih (c + 1)]
    congr 1
    omega

/-- A run of n low samples from a recorded low level accepts nothing. -/
theorem rep_low_noAccept : ∀ (n c : Nat),
    noAcceptB ⟨GPIOValue.low, c⟩ (List.replicate n GPIOValue.low) = true := by
  intro n
  induction n with
  | zero => intro c; rfl
  | succ k ih =>
    intro c
    rw [List.replicate_succ]
    simp only [noAcceptB]
    rw [Bool.and_eq_true]
    constructor
    · rw [easy_step_low_low c]
      simp
    · show noAcceptB (IsEasyButtonPressed GPIOValue.low ⟨GPIOValue.low, c⟩).2
          (List.replicate k GPIOValue.low) = true
      rw [easy_step_low_low c]
      exact ih (c + 1)

/-- Consuming an appended trace composes the state transformers. -/
theorem runEasyState_append (l1 l2 : List GPIOValue) : ∀ g,
    runEasyState g (l1 ++ l2) = runEasyState (runEasyState g l1) l2 := by
  induction l1 with
  | nil => intro g; rfl
  | cons lvl rest ih =>
    intro g
    show runEasyState (IsEasyButtonPressed lvl g).2 (rest ++ l2) = _
    exact ih _

/-- The per-tick outputs of an appended trace are the outputs of the
first part followed by the outputs of the second part from the
intermediate state. -/
theorem runEasy_append (l1 l2 : List GPIOValue) : ∀ g,
    runEasy g (l1 ++ l2) = runEasy g l1 ++ runEasy (runEasyState g l1) l2 := by
  induction l1 with
  | nil => intro g; rfl
  | cons lvl rest ih =>
    intro g
    show IsEasyButtonPressed lvl g :: runEasy (IsEasyButtonPressed lvl g).2 (rest ++ l2) = _
    rw [ih]
    rfl

/-- Folding the last-accepted-level accumulator over a run with no
accepted tick leaves the accumulator unchanged. -/
theorem noAccept_fold : ∀ (lvls : List GPIOValue) (g : EasyButtonGlobals) (a : GPIOValue),
    noAcceptB g lvls = true →
    (runEasy g lvls).foldl
      (fun acc p => if p.2.easyButtonCount = 0 then p.2.easyButtonState else acc) a = a := by
  intro lvls
  induction lvls with
  | nil => intro g a h; rfl
  | cons lvl rest ih =>
    intro g a h
    unfold noAcceptB at h
    rw [Bool.and_eq_true] at h
    obtain ⟨h1, h2⟩ := h
    rw [decide_eq_true_iff] at h1
    simp only [runEasy, List.foldl_cons]
    rw [if_neg h1]
    exact ih _ a h2

/-- After an accepted high transition, 451 low samples accept nothing. -/
theorem noAccept_after_high :
    noAcceptB ⟨GPIOValue.high, 0⟩ (List.replicate 451 GPIOValue.low) = true := by
  rw [List.replicate_succ, noAcceptB_cons]
  have hstep : (IsEasyButtonPressed GPIOValue.low ⟨GPIOValue.high, 0⟩).2 =
      ⟨GPIOValue.low, 1⟩ := by decide
  rw [hstep, Bool.and_eq_true]
  exact ⟨by decide, rep_low_noAccept 450 1⟩

/-- After an accepted high transition, 451 low samples leave the
debouncer at a recorded low level with counter 451. -/
theorem run_after_high :
    runEasyState ⟨GPIOValue.high, 0⟩ (List.replicate 451 GPIOValue.low) =
      ⟨GPIOValue.low, 451⟩ := by
  rw [List.replicate_succ, runEasyState_cons]
  have hstep : (IsEasyButtonPressed GPIOValue.low ⟨GPIOValue.high, 0⟩).2 =
      ⟨GPIOValue.low, 1⟩ := by decide
  rw [hstep]
  exact rep_low_state 450 1

/-- C4: for every value v delivered as the desired blink rate (a size_t in
the source), folding it as v % N with N = blinkIntervalsCount = 3 yields
an index in the interval from 0 to N exclusive, the fold is idempotent,
and DeviceTwinUpdate stores exactly the folded value as the interval
index. -/
theorem blink_index_fold_correct (v : Nat) (s : DeviceState) :
    blinkIntervalsCount = 3 ∧
    foldBlinkIndex v < blinkIntervalsCount ∧
    foldBlinkIndex (foldBlinkIndex v) = foldBlinkIndex v ∧
    (DeviceTwinUpdate (TwinValue.number v) s).blinkIntervalIndex = foldBlinkIndex v := by
  refine ⟨rfl, Nat.mod_lt v (by decide), ?_, ?_⟩
  · show v % 3 % 3 = v % 3
    omega
  · by_cases h : s.connectedToIoTHub <;>
      simp [DeviceTwinUpdate, SetLedRate, h]

/-- C8: a device-twin update whose desired blink-rate property is missing
or not a number leaves the whole device state unchanged; in particular
the interval index, the blink period and the LED1 timer period are
untouched. -/
theorem twin_update_ignores_malformed (s : DeviceState) :
    DeviceTwinUpdate TwinValue.missing s = s ∧
    DeviceTwinUpdate TwinValue.nonNumber s = s :=
  ⟨rfl, rfl⟩

/-- C10: on every return path of the direct-method handler the response
payload is a present string and the response payload size equals the
length of that string (heap allocation is modelled as succeeding; the
source aborts on allocation failure). -/
theorem direct_method_response_wellformed (m : String) (c : Option String)
    (s : DeviceState) :
    ∃ body : String,
      (DirectMethodCall m c s).1.responsePayload = some body ∧
      (DirectMethodCall m c s).1.responsePayloadSize = body.length := by
  unfold DirectMethodCall colorNotFoundResponse
  split
  · exact ⟨_, rfl, rfl⟩
  · match c with
    | none => exact ⟨_, rfl, rfl⟩
    | some name =>
      by_cases h : RgbLedUtility_GetColorFromString name = Color.unknown
      · simp only [h, if_pos]
        exact ⟨_, rfl, rfl⟩
      · simp only [if_neg h]
        exact ⟨_, rfl, rfl⟩

/-- C7: while not connected to the hub, an attempted send is a complete
no-op, and an attempted report (SetLedRate, or the one inside a numeric
device-twin update) changes nothing besides the locally applied interval
index, the derived period and the LED1 timer period: no payload is handed
to AzureIoT_SendMessage, nothing is reported upstream, and neither the
arming flag nor the blink phase or blink color changes. -/
theorem disconnected_send_report_noop (s : DeviceState) (p : String)
    (rate : Timespec) (v : Nat) (h : s.connectedToIoTHub = false) :
    SendMessageToIotHub p s = s ∧
    SetLedRate rate s = { s with led1TimerPeriod := rate } ∧
    DeviceTwinUpdate (TwinValue.number v) s =
      { s with blinkIntervalIndex := foldBlinkIndex v,
               blinkingLedPeriod := blinkIntervals.getD (foldBlinkIndex v) nullPeriod,
               led1TimerPeriod := blinkIntervals.getD (foldBlinkIndex v) nullPeriod } := by
  refine ⟨?_, ?_, ?_⟩ <;>
    simp [SendMessageToIotHub, SetLedRate, DeviceTwinUpdate, h]

/-- Witness for C7 at the initial (disconnected) state. -/
theorem disconnected_send_report_noop_witness :
    initialState.connectedToIoTHub = false ∧
    (SendMessageToIotHub "That was easy" initialState = initialState ∧
     SetLedRate ⟨0, 250000000⟩ initialState =
       { initialState with led1TimerPeriod := ⟨0, 250000000⟩ } ∧
     DeviceTwinUpdate (TwinValue.number 5) initialState =
       { initialState with
           blinkIntervalIndex := foldBlinkIndex 5,
           blinkingLedPeriod := blinkIntervals.getD (foldBlinkIndex 5) nullPeriod,
           led1TimerPeriod := blinkIntervals.getD (foldBlinkIndex 5) nullPeriod }) :=
  ⟨rfl, disconnected_send_report_noop initialState "That was easy" ⟨0, 250000000⟩ 5 rfl⟩

/-- C6 counterexample: the message-delivery confirmation callback
(MessageDelivered) does not set LED2 to the alert color and does not arm
the LED2 one-shot timer; on the initial state it leaves LED2 off and the
timer unarmed, and instead sets LED1 green.  This refutes the claim that
every notification trigger, delivery confirmation included, sets LED2 and
rearms its timer. -/
theorem notification_delivery_counterexample :
    (MessageDelivered true initialState).led2 = Color.off ∧
    Color.off ≠ Color.red ∧
    (MessageDelivered true initialState).led2OneShot = none ∧
    (MessageDelivered true initialState).led1 = Color.green := by
  refine ⟨rfl, by decide, rfl, rfl⟩

/-- C6 amended: an outbound send while connected and an inbound message
reception set LED2 to the fixed alert color red and rearm the LED2
one-shot timer for the fixed 150 ms delay, and on expiry of that timer
LED2 is blanked; the message-delivery confirmation callback, however,
leaves LED2 and its timer untouched and sets LED1 green instead. -/
theorem notification_indicator_amended (s : DeviceState) (p : String) (d : Bool)
    (hconn : s.connectedToIoTHub = true) :
    (SendMessageToIotHub p s).led2 = Color.red ∧
    (SendMessageToIotHub p s).led2OneShot = some defaultBlinkTimeLed2 ∧
    (MessageReceived p s).led2 = Color.red ∧
    (MessageReceived p s).led2OneShot = some defaultBlinkTimeLed2 ∧
    (Led2UpdateHandler s).led2 = Color.off ∧
    (MessageDelivered d s).led2 = s.led2 ∧
    (MessageDelivered d s).led2OneShot = s.led2OneShot ∧
    (MessageDelivered d s).led1 = Color.green := by
  simp [SendMessageToIotHub, MessageReceived, MessageDelivered,
        Led2UpdateHandler, BlinkLed2Once, hconn]

/-- Witness for the amended C6 at a connected state. -/
theorem notification_indicator_amended_witness :
    gestureReadyState.connectedToIoTHub = true ∧
    ((SendMessageToIotHub "m" gestureReadyState).led2 = Color.red ∧
     (SendMessageToIotHub "m" gestureReadyState).led2OneShot = some defaultBlinkTimeLed2 ∧
     (MessageReceived "m" gestureReadyState).led2 = Color.red ∧
     (MessageReceived "m" gestureReadyState).led2OneShot = some defaultBlinkTimeLed2 ∧
     (Led2UpdateHandler gestureReadyState).led2 = Color.off ∧
     (MessageDelivered true gestureReadyState).led2 = gestureReadyState.led2 ∧
     (MessageDelivered true gestureReadyState).led2OneShot = gestureReadyState.led2OneShot ∧
     (MessageDelivered true gestureReadyState).led1 = Color.green) :=
  ⟨rfl, notification_indicator_amended gestureReadyState "m" true rfl⟩

/-- Recognition is an exact match on canonical names, so for a recognized
name the canonical string of its color is the name itself. -/
theorem color_roundtrip (name : String)
    (h : RgbLedUtility_GetColorFromString name ≠ Color.unknown) :
    RgbLedUtility_GetStringFromColor (RgbLedUtility_GetColorFromString name) = name := by
  unfold RgbLedUtility_GetColorFromString at h ⊢
  split_ifs at h ⊢ <;> simp_all [RgbLedUtility_GetStringFromColor]

/-- C5 counterexample: for the method LedColorControlMethod with the
recognized color red, the handler does answer status 200, but the exact
response body it builds is the vsnprintf-formatted string with spaces
around the JSON separators, not the compact body stated by the claim. -/
theorem direct_method_body_counterexample :
    (DirectMethodCall "LedColorControlMethod" (some "red") initialState).1.status = 200 ∧
    (DirectMethodCall "LedColorControlMethod" (some "red") initialState).1.responsePayload ≠
      some claimedLedColorOkBodyRed ∧
    (DirectMethodCall "LedColorControlMethod" (some "red") initialState).1.responsePayload =
      some "\x7b \"success\" : true, \"message\" : \"led color set to red\" \x7d" := by
  refine ⟨rfl, by decide, rfl⟩

/-- C5 amended: the direct-method handler answers 200 for the method
LedColorControlMethod with a recognized color name, 400 when the payload
yields no color name or an unrecognized one, and 404 for any other method
name; the bodies are the exact strings formatted by the source, which
carry spaces around the JSON separators, and the 404 body is itself
wrapped in double quotes. -/
theorem direct_method_contract_amended (m name : String) (c : Option String)
    (s : DeviceState) :
    (m ≠ "LedColorControlMethod" →
      (DirectMethodCall m c s).1.status = 404 ∧
      (DirectMethodCall m c s).1.responsePayload =
        some ("\"method not found \x27" ++ m ++ "\x27\"")) ∧
    (RgbLedUtility_GetColorFromString name ≠ Color.unknown →
      (DirectMethodCall "LedColorControlMethod" (some name) s).1.status = 200 ∧
      (DirectMethodCall "LedColorControlMethod" (some name) s).1.responsePayload =
        some ("\x7b \"success\" : true, \"message\" : \"led color set to " ++ name ++ "\" \x7d")) ∧
    ((DirectMethodCall "LedColorControlMethod" none s).1.status = 400 ∧
     (DirectMethodCall "LedColorControlMethod" none s).1.responsePayload =
       some "\x7b \"success\" : false, \"message\" : \"request does not contain an identifiable color\" \x7d") ∧
    (RgbLedUtility_GetColorFromString name = Color.unknown →
      (DirectMethodCall "LedColorControlMethod" (some name) s).1.status = 400 ∧
      (DirectMethodCall "LedColorControlMethod" (some name) s).1.responsePayload =
        some "\x7b \"success\" : false, \"message\" : \"request does not contain an identifiable color\" \x7d") := by
  refine ⟨?_, ?_, ?_, ?_⟩
  · intro hm
    unfold DirectMethodCall
    rw [if_pos hm]
    exact ⟨rfl, rfl⟩
  · intro hc
    unfold DirectMethodCall
    rw [if_neg (by simp)]
    simp [if_neg hc, color_roundtrip name hc]
  · unfold DirectMethodCall colorNotFoundResponse
    rw [if_neg (by simp)]
    exact ⟨rfl, rfl⟩
  · intro hc
    unfold DirectMethodCall
    rw [if_neg (by simp)]
    simp [hc, colorNotFoundResponse]

/-- Witness for the amended C5 on the three concrete cases of the spec:
method Foo, color red, color purple. -/
theorem direct_method_contract_amended_witness :
    ("Foo" : String) ≠ "LedColorControlMethod" ∧
    (DirectMethodCall "Foo" (some "red") initialState).1.status = 404 ∧
    (DirectMethodCall "Foo" (some "red") initialState).1.responsePayload =
      some ("\"method not found \x27" ++ "Foo" ++ "\x27\"") ∧
    (DirectMethodCall "LedColorControlMethod" (some "red") initialState).1.status = 200 ∧
    (DirectMethodCall "LedColorControlMethod" (some "purple") initialState).1.status = 400 :=
  ⟨by decide,
   ((direct_method_contract_amended "Foo" "red" (some "red") initialState).1 (by decide)).1,
   ((direct_method_contract_amended "Foo" "red" (some "red") initialState).1 (by decide)).2,
   ((direct_method_contract_amended "Foo" "red" (some "red") initialState).2.1 (by decide)).1,
   ((direct_method_contract_amended "Foo" "purple" (some "purple") initialState).2.2.2 (by decide)).1⟩

/-- C2 counterexample: after the concrete 903-tick trace c2Trace from the
initial debouncer globals, the next sampled level high is reported
pressed although it equals the last accepted level: the only acceptance
within c2Trace is the high tick after the first 451 quiet ticks, so the
last accepted level is high.  This refutes the conjunct of the claim that
a pressed report requires the sample to differ from the last accepted
level; the code compares against the level of the previous tick, which it
overwrites on every sample. -/
theorem threshold_debounce_counterexample :
    (IsEasyButtonPressed GPIOValue.high (runEasyState ⟨GPIOValue.low, 0⟩ c2Trace)).1 = true ∧
    lastAcceptedLevel ⟨GPIOValue.low, 0⟩ c2Trace = GPIOValue.high := by
  have hA : runEasyState ⟨GPIOValue.low, 0⟩ (List.replicate 451 GPIOValue.low) =
      ⟨GPIOValue.low, 451⟩ := rep_low_state 451 0
  have hAH : runEasyState ⟨GPIOValue.low, 0⟩
      (List.replicate 451 GPIOValue.low ++ [GPIOValue.high]) = ⟨GPIOValue.high, 0⟩ := by
    rw [runEasyState_append, hA]
    decide
  have hfinal : runEasyState ⟨GPIOValue.low, 0⟩ c2Trace = ⟨GPIOValue.low, 451⟩ := by
    unfold c2Trace
    rw [runEasyState_append, hAH, run_after_high]
  constructor
  · rw [hfinal]
    decide
  · unfold lastAcceptedLevel c2Trace
    rw [runEasy_append, runEasy_append, hA, hAH, List.foldl_append, List.foldl_append]
    rw [noAccept_fold (List.replicate 451 GPIOValue.low) ⟨GPIOValue.low, 0⟩ _
          (rep_low_noAccept 451 0)]
    rw [noAccept_fold (List.replicate 451 GPIOValue.low) ⟨GPIOValue.high, 0⟩ _
          noAccept_after_high]
    decide

/-- C2 amended: the threshold debouncer reports pressed only when the
sampled level differs from the level recorded at the previous tick and
the tick counter (the number of ticks since the last accepted transition)
exceeds 450; on acceptance the counter resets to 0 and the recorded level
is set to the sample, and pressed fires only on a transition to the
active high level.  The recorded level is the previous sample, not the
last accepted level, because the fall-through path of the source
overwrites it on every tick. -/
theorem threshold_debounce_amended (g : EasyButtonGlobals) (lvl : GPIOValue)
    (hp : (IsEasyButtonPressed lvl g).1 = true) :
    lvl ≠ g.easyButtonState ∧ g.easyButtonCount > 450 ∧ lvl = GPIOValue.high ∧
    (IsEasyButtonPressed lvl g).2.easyButtonCount = 0 ∧
    (IsEasyButtonPressed lvl g).2.easyButtonState = lvl := by
  by_cases hc : g.easyButtonState ≠ lvl ∧ g.easyButtonCount > 450
  · unfold IsEasyButtonPressed at hp ⊢
    rw [if_pos hc] at hp ⊢
    rw [decide_eq_true_iff] at hp
    exact ⟨Ne.symm hc.1, hc.2, hp, rfl, rfl⟩
  · exfalso
    unfold IsEasyButtonPressed at hp
    rw [if_neg hc] at hp
    exact Bool.false_ne_true hp

/-- Witness for the amended C2: a high sample after 451 quiet ticks on a
recorded low level is reported pressed and satisfies every conjunct. -/
theorem threshold_debounce_amended_witness :
    (IsEasyButtonPressed GPIOValue.high ⟨GPIOValue.low, 451⟩).1 = true ∧
    (GPIOValue.high ≠ GPIOValue.low ∧ (451 : Nat) > 450 ∧
     GPIOValue.high = GPIOValue.high ∧
     (IsEasyButtonPressed GPIOValue.high ⟨GPIOValue.low, 451⟩).2.easyButtonCount = 0 ∧
     (IsEasyButtonPressed GPIOValue.high ⟨GPIOValue.low, 451⟩).2.easyButtonState = GPIOValue.high) :=
  ⟨by decide, threshold_debounce_amended ⟨GPIOValue.low, 451⟩ GPIOValue.high (by decide)⟩

/-- C9: the threshold debouncer never accepts a transition within 450
ticks of the previous accepted transition.  If one tick (consuming lvl1)
is accepted, the ticks consuming mid are all unaccepted and the next tick
(consuming lvl2) is accepted again, then the distance between the two
accepted ticks, mid.length + 1 ticks, exceeds 450. -/
theorem threshold_min_gap (g : EasyButtonGlobals) (lvl1 lvl2 : GPIOValue)
    (mid : List GPIOValue)
    (h1 : (IsEasyButtonPressed lvl1 g).2.easyButtonCount = 0)
    (hmid : noAcceptB (IsEasyButtonPressed lvl1 g).2 mid = true)
    (h2 : (IsEasyButtonPressed lvl2
        (runEasyState (IsEasyButtonPressed lvl1 g).2 mid)).2.easyButtonCount = 0) :
    450 < mid.length + 1 := by
  obtain ⟨-, hgt⟩ := easy_accept_pre lvl2 _ h2
  have hcount := noAccept_run_count mid _ hmid
  rw [h1] at hcount
  omega

/-- Witness for C9: two accepted high transitions separated by 451 quiet
low ticks. -/
theorem threshold_min_gap_witness :
    (IsEasyButtonPressed GPIOValue.high ⟨GPIOValue.low, 451⟩).2.easyButtonCount = 0 ∧
    noAcceptB (IsEasyButtonPressed GPIOValue.high ⟨GPIOValue.low, 451⟩).2
      (List.replicate 451 GPIOValue.low) = true ∧
    (IsEasyButtonPressed GPIOValue.high
      (runEasyState (IsEasyButtonPressed GPIOValue.high ⟨GPIOValue.low, 451⟩).2
        (List.replicate 451 GPIOValue.low))).2.easyButtonCount = 0 ∧
    450 < (List.replicate 451 GPIOValue.low).length + 1 := by
  have hg : (IsEasyButtonPressed GPIOValue.high ⟨GPIOValue.low, 451⟩).2 =
      ⟨GPIOValue.high, 0⟩ := by decide
  have h1 : (IsEasyButtonPressed GPIOValue.high ⟨GPIOValue.low, 451⟩).2.easyButtonCount = 0 := by
    rw [hg]
  have hmid : noAcceptB (IsEasyButtonPressed GPIOValue.high ⟨GPIOValue.low, 451⟩).2
      (List.replicate 451 GPIOValue.low) = true := by
    rw [hg]
    exact noAccept_after_high
  have h2 : (IsEasyButtonPressed GPIOValue.high
      (runEasyState (IsEasyButtonPressed GPIOValue.high ⟨GPIOValue.low, 451⟩).2
        (List.replicate 451 GPIOValue.low))).2.easyButtonCount = 0 := by
    rw [hg, run_after_high]
    decide
  exact ⟨h1, hmid, h2,
    threshold_min_gap ⟨GPIOValue.low, 451⟩ GPIOValue.high GPIOValue.high
      (List.replicate 451 GPIOValue.low) h1 hmid h2⟩

/-- From a recorded low level, an all-low run of samples reports no press
at all. -/
theorem runButton_low_all_false : ∀ (lvls : List GPIOValue),
    (∀ l ∈ lvls, l = GPIOValue.low) →
    (runButton GPIOValue.low lvls).count true = 0 := by
  intro lvls
  induction lvls with
  | nil => intro _; rfl
  | cons lvl rest ih =>
    intro h
    have hl : lvl = GPIOValue.low := h lvl (List.mem_cons_self lvl rest)
    subst hl
    unfold runButton
    simp only [IsButtonPressed, List.count_cons]
    rw [ih (fun l hm => h l (List.mem_cons_of_mem _ hm))]
    simp

/-- C3: the edge debouncer reports pressed exactly on a tick whose sample
is the active low level and differs from the recorded level of the
previous tick, and over any run of consecutive low samples (one
continuous press) it reports pressed at most once. -/
theorem edge_debounce_correct (old lvl : GPIOValue) (lvls : List GPIOValue)
    (hlow : ∀ l ∈ lvls, l = GPIOValue.low) :
    ((IsButtonPressed lvl old).1 = true ↔ (lvl = GPIOValue.low ∧ lvl ≠ old)) ∧
    (runButton old lvls).count true ≤ 1 := by
  constructor
  · simp only [IsButtonPressed, decide_eq_true_iff]
    tauto
  · cases lvls with
    | nil => simp [runButton]
    | cons l0 rest =>
      have hl : l0 = GPIOValue.low := hlow l0 (List.mem_cons_self _ _)
      subst hl
      unfold runButton
      have hrest : (runButton GPIOValue.low rest).count true = 0 :=
        runButton_low_all_false rest (fun l hm => hlow l (List.mem_cons_of_mem _ hm))
      simp only [IsButtonPressed, List.count_cons]
      rw [hrest]
      split <;> omega

/-- Witness for C3: from a released (high) recorded level, a three-tick
low hold reports pressed exactly once, on its first tick. -/
theorem edge_debounce_correct_witness :
    (∀ l ∈ [GPIOValue.low, GPIOValue.low, GPIOValue.low], l = GPIOValue.low) ∧
    (((IsButtonPressed GPIOValue.low GPIOValue.high).1 = true ↔
       (GPIOValue.low = GPIOValue.low ∧ GPIOValue.low ≠ GPIOValue.high)) ∧
     (runButton GPIOValue.high [GPIOValue.low, GPIOValue.low, GPIOValue.low]).count true ≤ 1) :=
  ⟨by decide,
   edge_debounce_correct GPIOValue.high GPIOValue.low
     [GPIOValue.low, GPIOValue.low, GPIOValue.low] (by decide)⟩

/-- C1: with the device connected and both edge-detect recordings at the
released high level, and the easy-button sample at its recorded level (so
the threshold debouncer stays quiet): from the Disarmed state a
primary-button (button A) press, a low sample, arms the gesture and sets
LED1 to the armed color blue without sending anything; from the Armed
state a confirm-button (button B) press disarms, sets LED1 to the fired
color red and hands the fixed payload to the send capability exactly
once; from the Disarmed state a confirm-button press alone sends nothing
and leaves the arming flag and LED1 unchanged. -/
theorem arming_gesture_correct (s : DeviceState)
    (hconn : s.connectedToIoTHub = true)
    (hA : s.blinkButtonState = GPIOValue.high)
    (hB : s.messageButtonState = GPIOValue.high) :
    (s.easyButtonArmed = false →
      (ButtonsHandler GPIOValue.low GPIOValue.high s.easy.easyButtonState s).easyButtonArmed = true ∧
      (ButtonsHandler GPIOValue.low GPIOValue.high s.easy.easyButtonState s).led1 = Color.blue ∧
      (ButtonsHandler GPIOValue.low GPIOValue.high s.easy.easyButtonState s).sentMessages =
        s.sentMessages) ∧
    (s.easyButtonArmed = true →
      (ButtonsHandler GPIOValue.high GPIOValue.low s.easy.easyButtonState s).easyButtonArmed = false ∧
      (ButtonsHandler GPIOValue.high GPIOValue.low s.easy.easyButtonState s).led1 = Color.red ∧
      (ButtonsHandler GPIOValue.high GPIOValue.low s.easy.easyButtonState s).sentMessages =
        s.sentMessages ++ ["That was easy"]) ∧
    (s.easyButtonArmed = false →
      (ButtonsHandler GPIOValue.high GPIOValue.low s.easy.easyButtonState s).easyButtonArmed = false ∧
      (ButtonsHandler GPIOValue.high GPIOValue.low s.easy.easyButtonState s).led1 = s.led1 ∧
      (ButtonsHandler GPIOValue.high GPIOValue.low s.easy.easyButtonState s).sentMessages =
        s.sentMessages) := by
  refine ⟨?_, ?_, ?_⟩ <;> intro harm <;>
    simp [ButtonsHandler, IsButtonPressed, IsEasyButtonPressed, SendMessageToIotHub,
          BlinkLed2Once, hconn, hA, hB, harm]

/-- Witness for C1 at concrete states: the connected gesture-ready state
(disarmed) and the same state armed. -/
theorem arming_gesture_correct_witness :
    gestureReadyState.easyButtonArmed = false ∧
    gestureArmedState.easyButtonArmed = true ∧
    (ButtonsHandler GPIOValue.low GPIOValue.high gestureReadyState.easy.easyButtonState
      gestureReadyState).easyButtonArmed = true ∧
    (ButtonsHandler GPIOValue.low GPIOValue.high gestureReadyState.easy.easyButtonState
      gestureReadyState).led1 = Color.blue ∧
    (ButtonsHandler GPIOValue.high GPIOValue.low gestureArmedState.easy.easyButtonState
      gestureArmedState).sentMessages = gestureArmedState.sentMessages ++ ["That was easy"] ∧
    (ButtonsHandler GPIOValue.high GPIOValue.low gestureArmedState.easy.easyButtonState
      gestureArmedState).led1 = Color.red ∧
    (ButtonsHandler GPIOValue.high GPIOValue.low gestureReadyState.easy.easyButtonState
      gestureReadyState).sentMessages = gestureReadyState.sentMessages :=
  ⟨rfl, rfl,
   ((arming_gesture_correct gestureReadyState rfl rfl rfl).1 rfl).1,
   ((arming_gesture_correct gestureReadyState rfl rfl rfl).1 rfl).2.1,
   ((arming_gesture_correct gestureArmedState rfl rfl rfl).2.1 rfl).2.2,
   ((arming_gesture_correct gestureArmedState rfl rfl rfl).2.1 rfl).2.1,
   ((arming_gesture_correct gestureReadyState rfl rfl rfl).2.2 rfl).2.2⟩

end EasyButton
